import Mathlib

/-!
Verification of `addons/my_custom_components.py` (the `EntityTypoFixer`
Rasa NLU component) against its natural-language specification.

The Python source is shallowly embedded below:

* Python values that may appear in a configuration / metadata dictionary are
  modelled by the inductive `Val` (only `None`, integers and strings occur in
  this component's dictionaries).
* A Python dictionary is an association list `Dict`; `dget` is `dict.get`
  with a default.
* The file system touched by `persist` / `load` is an association list `FS`
  from paths to the (already JSON-parsed) list of strings stored there; the
  component only ever stores a JSON array of strings.
* The fuzzy-matching routine `fuzzywuzzy.process.extractOne` belongs to an
  external library; it is embedded parametrically in its scorer
  (`fuzz.WRatio` in the library's default configuration): the candidates are
  scored, those at or above `score_cutoff` kept, and the first
  highest-scoring one returned, `none` when nothing clears the cutoff —
  which is exactly the library's documented behaviour.
* In-place mutation of entity dictionaries and of the component is embedded
  by returning the updated value; fallible constructions return `Option`
  (`none` models a raised Python exception).
-/

namespace RasaFuzzy

/-- A Python value as it occurs in this component's dictionaries:
`None`, an `int`, or a `str`. -/
inductive Val where
  | vnone : Val
  | vint : Nat → Val
  | vstr : String → Val
deriving DecidableEq

/-- Python truthiness (`if not x`) restricted to `Val`:
`None`, `0` and `""` are falsy. -/
def Val.truthy : Val → Bool
  | .vnone => false
  | .vint n => n != 0
  | .vstr s => s != ""

/-- A Python dictionary with string keys, as used for `component_config`
and the persistence metadata. -/
abbrev Dict := List (String × Val)

/-- `d.get(k, dflt)` on a Python dictionary. -/
def dget (d : Dict) (k : String) (dflt : Val) : Val :=
  match d.find? (fun kv => kv.1 == k) with
  | some kv => kv.2
  | Option.none => dflt

/-- `k in d` / `d.get(k)` on a Python dictionary, without a default. -/
def dlookup (d : Dict) (k : String) : Option Val :=
  (d.find? (fun kv => kv.1 == k)).map Prod.snd

/-- The file system seen by `persist` and `load`: a map from paths to the
JSON array of strings stored at that path. -/
abbrev FS := List (String × List String)

/-- `rasa.nlu.utils.write_json_to_file`: (over)writes the JSON array at
`path`. -/
def fsWrite (fs : FS) (path : String) (contents : List String) : FS :=
  (path, contents) :: fs

/-- `os.path.isfile` combined with `rasa.shared.utils.io.read_json_file`:
`some` contents when the file exists, `none` when it does not. -/
def fsRead (fs : FS) (path : String) : Option (List String) :=
  (fs.find? (fun f => f.1 == path)).map Prod.snd

/-- `os.path.join` for the two-argument uses in this component. -/
def pathJoin (d f : String) : String :=
  if f.startsWith "/" then f
  else if d == "" then f
  else if d.endsWith "/" then d ++ f
  else d ++ "/" ++ f

/-- `fuzzywuzzy.process.extractWithoutOrder`: score every choice against the
query and keep those whose score is at or above `score_cutoff`. -/
def extractWithoutOrder (scorer : String → String → Nat) (query : String)
    (choices : List String) (score_cutoff : Nat) : List (String × Nat) :=
  (choices.map (fun choice => (choice, scorer query choice))).filter
    (fun p => score_cutoff ≤ p.2)

/-- Python's `max(xs, key=lambda i: i[1])` returning `none` on an empty
list: the first element of maximal score wins. -/
def maxBySecond : List (String × Nat) → Option (String × Nat)
  | [] => Option.none
  | p :: ps => some (ps.foldl (fun best q => if best.2 < q.2 then q else best) p)

/-- `fuzzywuzzy.process.extractOne(query, choices, score_cutoff=c)`:
the first best-scoring choice at or above the cutoff, else `none`. -/
def extractOne (scorer : String → String → Nat) (query : String)
    (choices : List String) (score_cutoff : Nat) : Option (String × Nat) :=
  maxBySecond (extractWithoutOrder scorer query choices score_cutoff)

/-- An extracted entity record: a dictionary with a `value` field, an
optional `processors` field, and arbitrary further fields abstracted as
`other` (the host also stores `start`, `end`, `entity`, `confidence`, …).
The component reads `str(entity["value"])`; values are embedded at their
text coercion, so the coercion is the identity here. -/
structure Entity (α : Type) where
  value : String
  processors : Option (List String)
  other : α
deriving DecidableEq

/-- The message object, reduced to the fields the component touches:
the `entities` field (`message.get(ENTITIES, [])`, absent = `[]`) and the
rest of the host-owned data abstracted as `other`. -/
structure Message (α β : Type) where
  entities : List (Entity α)
  other : β
deriving DecidableEq

/-- The state of an `EntityTypoFixer` instance: its canonical entity list
and its score cutoff. -/
structure EntityTypoFixer where
  entities : List String
  score_cutoff : Nat
deriving DecidableEq

/-- `self.name` of the component: Rasa's `Component.name` is the class
name. -/
def componentName : String := "EntityTypoFixer"

/-- `EntityTypoFixer.__init__(component_config, entities)`.
`none` models a raised exception: with `component_config=None` the attribute
access `None.get("score_cutoff", ...)` raises `AttributeError`; a
non-integer cutoff value would make the later `score >= self.score_cutoff`
comparison inside fuzzywuzzy raise `TypeError`, and is modelled as a
construction failure. `entities if entities else []` maps both `None` and
`[]` to `[]`. -/
def EntityTypoFixer.init (component_config : Option Dict)
    (entities : Option (List String)) : Option EntityTypoFixer :=
  match component_config with
  | Option.none => Option.none
  | some cfg =>
      let ents : List String :=
        match entities with
        | some es => if es.isEmpty then [] else es
        | Option.none => []
      match dget cfg "score_cutoff" (Val.vint 80) with
      | Val.vint n => some { entities := ents, score_cutoff := n }
      | _ => Option.none

/-- The training corpus, reduced to the field the component reads:
`training_data.entity_synonyms`, a Python dictionary embedded as an ordered
association list (its keys are pairwise distinct by construction of a
dictionary). -/
structure TrainingData where
  entity_synonyms : List (String × String)

/-- `EntityTypoFixer.train`: `self.entities =
list(training_data.entity_synonyms.keys())`. -/
def EntityTypoFixer.train (self : EntityTypoFixer)
    (training_data : TrainingData) : EntityTypoFixer :=
  { self with entities := training_data.entity_synonyms.map Prod.fst }

/-- `EntityTypoFixer.add_processor_name(entity)`: append `self.name` to the
`processors` list, creating it when absent. -/
def add_processor_name {α : Type} (entity : Entity α) : Entity α :=
  match entity.processors with
  | some ps => { entity with processors := some (ps ++ [componentName]) }
  | Option.none => { entity with processors := some [componentName] }

/-- One iteration of the loop in `EntityTypoFixer.fix_entity_typo`:
look up the best fuzzy match of `str(entity["value"])` against
`self.entities` at `self.score_cutoff`; when one exists and differs from
the value, overwrite the value and record the processor name. -/
def fixOne {α : Type} (scorer : String → String → Nat)
    (self : EntityTypoFixer) (entity : Entity α) : Entity α :=
  let entity_value := entity.value
  match extractOne scorer entity_value self.entities self.score_cutoff with
  | some fuzzy_match =>
      if fuzzy_match.1 != entity_value then
        add_processor_name { entity with value := fuzzy_match.1 }
      else entity
  | Option.none => entity

/-- `EntityTypoFixer.fix_entity_typo(entities)`: the in-place `for` loop,
embedded as a map over the records. -/
def EntityTypoFixer.fix_entity_typo {α : Type} (self : EntityTypoFixer)
    (scorer : String → String → Nat) (entities : List (Entity α)) :
    List (Entity α) :=
  entities.map (fixOne scorer self)

/-- `EntityTypoFixer.process(message)`: read the extracted entities, fix
them, and write them back onto the message (the `add_to_output=True` flag
is host bookkeeping outside this model). The component state is threaded
explicitly; the method body never assigns to `self`. -/
def EntityTypoFixer.process {α β : Type} (self : EntityTypoFixer)
    (scorer : String → String → Nat) (message : Message α β) :
    EntityTypoFixer × Message α β :=
  let extracted_entities := message.entities
  let fixed := self.fix_entity_typo scorer extracted_entities
  (self, { message with entities := fixed })

/-- `EntityTypoFixer.persist(file_name, model_dir)`: write the canonical
list as a JSON array to `<file_name>.json` when it is non-empty and return
`{"file": <file_name>.json}`; otherwise write nothing and return
`{"file": None}`. -/
def EntityTypoFixer.persist (self : EntityTypoFixer)
    (file_name model_dir : String) (fs : FS) : Dict × FS :=
  if self.entities.isEmpty = false then
    let file_name' := file_name ++ ".json"
    let entity_file := pathJoin model_dir file_name'
    ([("file", Val.vstr file_name')], fsWrite fs entity_file self.entities)
  else
    ([("file", Val.vnone)], fs)

/-- `EntityTypoFixer.load(meta, model_dir)`: when the descriptor names no
file (falsy `meta.get("file")`) construct with `entities=None`; when the
named file exists parse it, otherwise fall back to `entities=None`.
A truthy non-string `file` value would make `os.path.join` raise
(`none`). -/
def EntityTypoFixer.load (meta : Dict) (model_dir : String) (fs : FS) :
    Option EntityTypoFixer :=
  let file_name := dget meta "file" Val.vnone
  if file_name.truthy = false then
    EntityTypoFixer.init (some meta) Option.none
  else
    match file_name with
    | Val.vstr fn =>
        let entities_file := pathJoin model_dir fn
        match fsRead fs entities_file with
        | some es => EntityTypoFixer.init (some meta) (some es)
        | Option.none => EntityTypoFixer.init (some meta) Option.none
    | _ => Option.none

/-! ### Helper lemmas -/

/-- When every canonical string scores below the cutoff, `extractOne`
returns nothing. -/
theorem extractOne_eq_none_of_all_below (scorer : String → String → Nat)
    (query : String) (choices : List String) (c : Nat)
    (h : ∀ s ∈ choices, scorer query s < c) :
    extractOne scorer query choices c = Option.none := by
  have hfil : extractWithoutOrder scorer query choices c = [] := by
    unfold extractWithoutOrder
    rw [List.filter_eq_nil_iff]
    intro p hp
    rcases List.mem_map.mp hp with ⟨s, hs, rfl⟩
    simpa using Nat.not_le.mpr (h s hs)
  unfold extractOne
  rw [hfil]
  rfl

/-- `persist` on a non-empty canonical list: descriptor plus file write. -/
theorem persist_of_ne_nil (self : EntityTypoFixer) (f d : String) (fs : FS)
    (h : self.entities ≠ []) :
    EntityTypoFixer.persist self f d fs =
      ([("file", Val.vstr (f ++ ".json"))],
        fsWrite fs (pathJoin d (f ++ ".json")) self.entities) := by
  unfold EntityTypoFixer.persist
  simp [List.isEmpty_iff, h]

/-- `persist` on an empty canonical list: null descriptor, untouched file
system. -/
theorem persist_of_nil (self : EntityTypoFixer) (f d : String) (fs : FS)
    (h : self.entities = []) :
    EntityTypoFixer.persist self f d fs = ([("file", Val.vnone)], fs) := by
  unfold EntityTypoFixer.persist
  simp [List.isEmpty_iff, h]

/-! ### Claims -/

/-- Claim C1: for every canonical list, cutoff and entity record, if the
best fuzzy-match score of the record's value against every canonical string
is below the cutoff, `fix_entity_typo` leaves the record's `value` equal to
its original value and its `processors` field unchanged. -/
theorem fix_entity_typo_below_cutoff_unchanged {α : Type}
    (scorer : String → String → Nat) (self : EntityTypoFixer) (e : Entity α)
    (h : ∀ s ∈ self.entities, scorer e.value s < self.score_cutoff) :
    (fixOne scorer self e).value = e.value ∧
      (fixOne scorer self e).processors = e.processors := by
  have hnone := extractOne_eq_none_of_all_below scorer e.value self.entities
    self.score_cutoff h
  unfold fixOne
  dsimp only
  rw [hnone]
  exact ⟨rfl, rfl⟩

/-- Witness for C1: no canonical string scores `"Tokyo"` at `80` under a
constant scorer, so the record survives untouched. -/
theorem fix_entity_typo_below_cutoff_unchanged_witness :
    (fixOne (fun _ _ => 10) ⟨["Berlin", "Munich"], 80⟩
        (⟨"Tokyo", Option.none, ()⟩ : Entity Unit)).value = "Tokyo" ∧
      (fixOne (fun _ _ => 10) ⟨["Berlin", "Munich"], 80⟩
        (⟨"Tokyo", Option.none, ()⟩ : Entity Unit)).processors = Option.none :=
  fix_entity_typo_below_cutoff_unchanged (fun _ _ => 10)
    ⟨["Berlin", "Munich"], 80⟩ ⟨"Tokyo", Option.none, ()⟩ (by decide)

/-- Claim C2: when the best fuzzy match of the record's value at or above
the cutoff differs from that value, `fix_entity_typo` overwrites `value`
with the match and appends the component's name to `processors`, creating
the list if absent and preserving prior entries otherwise. -/
theorem fix_entity_typo_rewrites_and_appends {α : Type}
    (scorer : String → String → Nat) (self : EntityTypoFixer) (e : Entity α)
    (m : String) (sc : Nat)
    (hm : extractOne scorer e.value self.entities self.score_cutoff =
      some (m, sc))
    (hne : m ≠ e.value) :
    (fixOne scorer self e).value = m ∧
      (fixOne scorer self e).processors =
        some (e.processors.getD [] ++ [componentName]) := by
  unfold fixOne
  dsimp only
  rw [hm]
  dsimp only
  rw [if_pos (by simpa using hne)]
  cases hp : e.processors <;>
    simp [add_processor_name, hp]

/-- Witness for C2: `"Berln"` is corrected to `"Berlin"` (score 90 ≥ 80)
and `"EntityTypoFixer"` is appended after the existing processor entry. -/
theorem fix_entity_typo_rewrites_and_appends_witness :
    (fixOne (fun _ c => if c == "Berlin" then 90 else 10)
        ⟨["Berlin", "Munich"], 80⟩
        (⟨"Berln", some ["upstream"], ()⟩ : Entity Unit)).value = "Berlin" ∧
      (fixOne (fun _ c => if c == "Berlin" then 90 else 10)
        ⟨["Berlin", "Munich"], 80⟩
        (⟨"Berln", some ["upstream"], ()⟩ : Entity Unit)).processors =
          some ((some ["upstream"]).getD [] ++ [componentName]) :=
  fix_entity_typo_rewrites_and_appends (fun _ c => if c == "Berlin" then 90 else 10)
    ⟨["Berlin", "Munich"], 80⟩ ⟨"Berln", some ["upstream"], ()⟩
    "Berlin" 90 (by decide) (by decide)

/-- Claim C3: when the best fuzzy match equals the record's value exactly,
`fix_entity_typo` leaves the record entirely unchanged (value and
`processors`), even though the score cleared the cutoff: correction is a
no-op on already-canonical values. -/
theorem fix_entity_typo_exact_match_noop {α : Type}
    (scorer : String → String → Nat) (self : EntityTypoFixer) (e : Entity α)
    (sc : Nat)
    (hm : extractOne scorer e.value self.entities self.score_cutoff =
      some (e.value, sc)) :
    fixOne scorer self e = e := by
  unfold fixOne
  dsimp only
  rw [hm]
  simp

/-- Witness for C3: `"Berlin"` already canonical (score 95 ≥ 80): the
record is returned unchanged. -/
theorem fix_entity_typo_exact_match_noop_witness :
    fixOne (fun _ c => if c == "Berlin" then 95 else 10)
        ⟨["Berlin", "Munich"], 80⟩
        (⟨"Berlin", some ["upstream"], ()⟩ : Entity Unit) =
      ⟨"Berlin", some ["upstream"], ()⟩ :=
  fix_entity_typo_exact_match_noop (fun _ c => if c == "Berlin" then 95 else 10)
    ⟨["Berlin", "Munich"], 80⟩ ⟨"Berlin", some ["upstream"], ()⟩ 95 (by decide)

/-- Claim C4: with a non-empty canonical list, `persist` writes the list as
a JSON array to `<file_name>.json` under the model directory and returns
the descriptor `{"file": <file_name>.json}`; with an empty list it writes
nothing and returns `{"file": None}`. -/
theorem persist_writes_json_or_skips (self : EntityTypoFixer)
    (f d : String) (fs : FS) :
    (self.entities ≠ [] →
      EntityTypoFixer.persist self f d fs =
        ([("file", Val.vstr (f ++ ".json"))],
          fsWrite fs (pathJoin d (f ++ ".json")) self.entities)) ∧
    (self.entities = [] →
      EntityTypoFixer.persist self f d fs = ([("file", Val.vnone)], fs)) :=
  ⟨persist_of_ne_nil self f d fs, persist_of_nil self f d fs⟩

/-- Witness for C4: persisting `["Berlin"]` writes `dir/comp.json` and
returns the file descriptor. -/
theorem persist_writes_json_or_skips_witness :
    EntityTypoFixer.persist ⟨["Berlin"], 80⟩ "comp" "dir" [] =
      ([("file", Val.vstr "comp.json")],
        fsWrite [] (pathJoin "dir" "comp.json") ["Berlin"]) :=
  (persist_writes_json_or_skips ⟨["Berlin"], 80⟩ "comp" "dir" []).1 (by decide)

/-- A persisted file name `f ++ ".json"` is never the empty string. -/
theorem append_json_ne_empty (f : String) : (f ++ ".json") ≠ "" := by
  intro hc
  have hlen := congrArg String.length hc
  simp [String.length_append] at hlen
  exact absurd hlen.2 (by decide)

/-- Claim C5: persisting a non-empty canonical list and then reloading from
the returned descriptor and the same directory succeeds and yields a
component whose canonical list equals the persisted one, element for
element. -/
theorem persist_load_round_trip (self : EntityTypoFixer) (f d : String)
    (fs : FS) (h : self.entities ≠ []) :
    (EntityTypoFixer.load (EntityTypoFixer.persist self f d fs).1 d
        (EntityTypoFixer.persist self f d fs).2).map EntityTypoFixer.entities =
      some self.entities := by
  rw [persist_of_ne_nil self f d fs h]
  have hfn : ((f ++ ".json") != "") = true := by
    simpa using append_json_ne_empty f
  simp [EntityTypoFixer.load, dget, Val.truthy, List.find?, fsRead, fsWrite,
    EntityTypoFixer.init, hfn, List.isEmpty_iff, h]

/-- Witness for C5: `["Berlin", "Munich"]` survives the persist/load round
trip through `dir/comp.json`. -/
theorem persist_load_round_trip_witness :
    (EntityTypoFixer.load
        (EntityTypoFixer.persist ⟨["Berlin", "Munich"], 90⟩ "comp" "dir" []).1
        "dir"
        (EntityTypoFixer.persist ⟨["Berlin", "Munich"], 90⟩ "comp" "dir" []).2).map
      EntityTypoFixer.entities = some ["Berlin", "Munich"] :=
  persist_load_round_trip ⟨["Berlin", "Munich"], 90⟩ "comp" "dir" [] (by decide)

/-- Claim C6: when the descriptor names no file (falsy entry), or names a
file that does not exist on disk, `load` succeeds — no fault — and returns
an instance with an empty canonical list. The descriptor's `score_cutoff`
entry, when present, is an integer (as any descriptor the host round-trips
is). -/
theorem load_missing_file_empty_entities (meta : Dict) (d : String) (fs : FS)
    (n : Nat)
    (hcut : dget meta "score_cutoff" (Val.vint 80) = Val.vint n)
    (hmiss : (dget meta "file" Val.vnone).truthy = false ∨
      ∃ fn, dget meta "file" Val.vnone = Val.vstr fn ∧
        fsRead fs (pathJoin d fn) = Option.none) :
    (EntityTypoFixer.load meta d fs).map EntityTypoFixer.entities = some [] := by
  have hload : EntityTypoFixer.load meta d fs =
      EntityTypoFixer.init (some meta) Option.none := by
    unfold EntityTypoFixer.load
    dsimp only
    rcases hmiss with htr | ⟨fn, hfn, hread⟩
    · rw [if_pos htr]
    · rw [hfn]
      by_cases htr : (Val.vstr fn).truthy = false
      · rw [if_pos htr]
      · rw [if_neg htr]
        dsimp only
        rw [hread]
  rw [hload]
  unfold EntityTypoFixer.init
  dsimp only
  rw [hcut]
  rfl

/-- Witness for C6: the null descriptor `{"file": None}` reloads into an
instance with no canonical values. -/
theorem load_missing_file_empty_entities_witness :
    (EntityTypoFixer.load [("file", Val.vnone)] "dir" []).map
      EntityTypoFixer.entities = some [] :=
  load_missing_file_empty_entities [("file", Val.vnone)] "dir" [] 80
    (by decide) (Or.inl (by decide))

/-- Claim C7: `train` replaces the canonical list wholesale with the keys
of the corpus's entity-synonym mapping, in corpus order, regardless of the
previous contents; the rest of the component state is untouched (the
method returns nothing). -/
theorem train_replaces_entities_with_synonym_keys (self : EntityTypoFixer)
    (td : TrainingData) :
    (EntityTypoFixer.train self td).entities =
        td.entity_synonyms.map Prod.fst ∧
      (EntityTypoFixer.train self td).score_cutoff = self.score_cutoff :=
  ⟨rfl, rfl⟩

/-- Claim C8: message processing never changes the canonical list — the
threaded component state coming out of `process` carries exactly the list
it went in with (the method body never assigns to `self.entities`). -/
theorem process_preserves_canonical_list {α β : Type}
    (scorer : String → String → Nat) (self : EntityTypoFixer)
    (message : Message α β) :
    (EntityTypoFixer.process self scorer message).1.entities =
      self.entities :=
  rfl

/-- Claim C9: constructing with `component_config=None` faults
(`None.get` raises `AttributeError`), while the default cutoff of 80 is
applied when a configuration dictionary is present but lacks the
`score_cutoff` key. -/
theorem init_none_config_faults_and_defaults (es : Option (List String))
    (cfg : Dict) (h : dlookup cfg "score_cutoff" = Option.none) :
    EntityTypoFixer.init Option.none es = Option.none ∧
      (EntityTypoFixer.init (some cfg) es).map EntityTypoFixer.score_cutoff =
        some 80 := by
  refine ⟨rfl, ?_⟩
  have hfind : cfg.find? (fun kv => kv.1 == "score_cutoff") = Option.none := by
    unfold dlookup at h
    cases hf : cfg.find? (fun kv => kv.1 == "score_cutoff") with
    | none => rfl
    | some kv => rw [hf] at h; simp at h
  have hd : dget cfg "score_cutoff" (Val.vint 80) = Val.vint 80 := by
    unfold dget
    rw [hfind]
  unfold EntityTypoFixer.init
  dsimp only
  rw [hd]
  rfl

/-- Witness for C9: the omitted dictionary faults; the empty dictionary
yields the default cutoff 80. -/
theorem init_none_config_faults_and_defaults_witness :
    EntityTypoFixer.init Option.none Option.none = Option.none ∧
      (EntityTypoFixer.init (some ([] : Dict)) Option.none).map
        EntityTypoFixer.score_cutoff = some 80 :=
  init_none_config_faults_and_defaults Option.none [] (by decide)

/-- Claim C10: the correction operation touches only `value` and
`processors`: every other field of an entity record comes out of
`fix_entity_typo` exactly as it went in, whether or not a correction was
applied. -/
theorem fix_entity_typo_frame_condition {α : Type}
    (scorer : String → String → Nat) (self : EntityTypoFixer)
    (e : Entity α) :
    (fixOne scorer self e).other = e.other := by
  unfold fixOne
  dsimp only
  split
  · split
    · unfold add_processor_name
      split <;> rfl
    · rfl
  · rfl

end RasaFuzzy
